import Mathlib

/-!
Shallow embedding of the WebSocket connection manager implemented in
src/hooks/useWebSocket.ts (the useWebSocket React hook).

The hook is single-threaded and event-driven: all mutations happen inside
synchronous handler bodies (connect, sendMessage, reconnect, the unmount
cleanup) or inside event callbacks (handleOpen, handleMessage, handleError,
handleClose, the connection-timeout callback, the retry-timer callback),
which the event loop runs one at a time.  We model the mutable state of one
hook instance as a record `MState`, each synchronous body as a function
`MState -> MState`, and an execution as a fold of environment/caller events
over those functions.

Modelling conventions:
  - each `new WebSocket(url)` handle is a `Socket` entry appended to
    `MState.sockets`; its index is its identity; `MState.current` is
    `webSocketRef.current`;
  - `Socket.listeners` records whether the four event listeners added in
    `connect` are still attached (handleClose removes them; nothing else
    does);
  - `ws.close()` moves a CONNECTING/OPEN handle to CLOSING; the transport
    actually closing is the separate environment event `Ev.sockClose`,
    which sets the state to CLOSED and runs `handleClose` iff the
    listeners are still attached;
  - `setTimeout` for the retry timer yields a fresh timer id; the code
    keeps only the most recent id in `retryTimeoutRef`, so `clearTimeout`
    on that ref cancels only the most recently scheduled timer; ids of
    scheduled, unfired, uncancelled timers live in `pendingTimers`;
  - the per-attempt 5s connection timeout is the per-socket flag
    `timeoutPending`; its firing is the event `Ev.connectTimeout`;
  - messages are opaque payloads (`Msg := Nat`); `ws.send` appends to the
    transmission log `sent`; `setError e` writes `lastError`; each
    `onError` callback invocation is appended to `errorCb`;
  - every delay passed to the retry `setTimeout` is logged in `delayLog`.
-/

namespace UseWebSocket

/-- Connection states of the hook (the WebSocketState enum in the source). -/
inductive WebSocketState where
  | CONNECTING
  | OPEN
  | CLOSING
  | CLOSED
deriving DecidableEq, Repr

/-- Ready states of a raw WebSocket handle. -/
inductive ReadyState where
  | CONNECTING
  | OPEN
  | CLOSING
  | CLOSED
deriving DecidableEq, Repr

/-- The distinct Error values the hook constructs.  `connectionFailed` is
the generic transport-error message built in handleError, `retriesExhausted`
the demo-mode message built when retries run out, `creationError` the error
caught when the WebSocket constructor throws.  `timeoutError` appears in the
taxonomy of the specification but is never constructed by the code; it is
included so that statements about it can be expressed. -/
inductive WSError where
  | connectionFailed
  | retriesExhausted
  | creationError
  | timeoutError
deriving DecidableEq, Repr

/-- Outbound message payloads are opaque to the manager. -/
abbrev Msg := Nat

/-- One raw WebSocket handle. -/
structure Socket where
  listeners : Bool
  ready : ReadyState
  timeoutPending : Bool
deriving DecidableEq, Repr

/-- Configuration options of the hook (with source defaults 5, 1000, true). -/
structure Config where
  shouldReconnect : Bool
  maxRetries : Nat
  retryDelay : Nat
deriving DecidableEq, Repr

/-- The source defaults: maxRetries = 5, retryDelay = 1000, shouldReconnect
= true. -/
def defaultConfig : Config := ⟨true, 5, 1000⟩

/-- The mutable state of one hook instance. -/
structure MState where
  state : WebSocketState
  lastError : Option WSError
  retries : Nat
  retryTimerRef : Option Nat
  pendingTimers : List Nat
  nextTimer : Nat
  sockets : List Socket
  current : Option Nat
  messageQueue : List Msg
  sent : List Msg
  errorCb : List WSError
  delayLog : List Nat
deriving DecidableEq, Repr

/-- Initial state of the hook: useState(WebSocketState.CLOSED), no error,
zero retries, no timers, no handle, empty queue. -/
def init : MState :=
  { state := WebSocketState.CLOSED
    lastError := none
    retries := 0
    retryTimerRef := none
    pendingTimers := []
    nextTimer := 0
    sockets := []
    current := none
    messageQueue := []
    sent := []
    errorCb := []
    delayLog := [] }

/-- Point update of one list entry (used for the socket store). -/
def modifyIdx : List Socket → Nat → (Socket → Socket) → List Socket
  | [], _, _ => []
  | x :: xs, 0, f => f x :: xs
  | x :: xs, n + 1, f => x :: modifyIdx xs n f

/-- The handle `webSocketRef.current` points at, when valid. -/
def getSocket (s : MState) : Option Socket :=
  match s.current with
  | some i => s.sockets.get? i
  | none => none

/-- readyState of the current handle (webSocketRef.current?.readyState). -/
def currentReady (s : MState) : Option ReadyState :=
  (getSocket s).map (fun sk => sk.ready)

/-- Effect of ws.close() on a handle: CONNECTING/OPEN moves to CLOSING, a
CLOSING or CLOSED handle is unaffected.  The close event itself arrives
later as `Ev.sockClose`. -/
def closeWS (sk : Socket) : Socket :=
  if sk.ready = ReadyState.CONNECTING ∨ sk.ready = ReadyState.OPEN then
    { sk with ready := ReadyState.CLOSING }
  else sk

/-- Call ws.close() on the current handle, when there is one. -/
def closeCurrent (s : MState) : MState :=
  match s.current with
  | some i => { s with sockets := modifyIdx s.sockets i closeWS }
  | none => s

/-- A freshly constructed WebSocket: CONNECTING, listeners attached, 5s
connection timeout scheduled. -/
def freshSocket : Socket :=
  { listeners := true, ready := ReadyState.CONNECTING, timeoutPending := true }

/-- Embedding of connect (lines 91 to 192 of the hook), successful
constructor case: return early if the current handle is OPEN; otherwise
close any existing non-CLOSED handle, set state CONNECTING, construct a new
handle with its connection timeout and listeners, and store it in
webSocketRef. -/
def connect (s : MState) : MState :=
  if currentReady s = some ReadyState.OPEN then s
  else
    let s1 := if (getSocket s).isSome ∧ currentReady s ≠ some ReadyState.CLOSED then
        closeCurrent s
      else s
    { s1 with
      state := WebSocketState.CONNECTING
      sockets := s1.sockets ++ [freshSocket]
      current := some s1.sockets.length }

/-- Embedding of the catch branch of connect: the WebSocket constructor
throws.  The guard and the close of the prior handle already ran, state was
set to CONNECTING inside the try block, then the catch block records the
error, invokes onError, and sets state CLOSED.  No handle is created and no
retry is scheduled. -/
def connectCtorFail (s : MState) : MState :=
  if currentReady s = some ReadyState.OPEN then s
  else
    let s1 := if (getSocket s).isSome ∧ currentReady s ≠ some ReadyState.CLOSED then
        closeCurrent s
      else s
    { s1 with
      state := WebSocketState.CLOSED
      lastError := some WSError.creationError
      errorCb := s1.errorCb ++ [WSError.creationError] }

/-- Embedding of the queue-drain loop in handleOpen (lines 123 to 128):
while the queue is nonempty, shift the first message, then transmit it iff
ws.readyState is OPEN at that iteration (the readyState is re-read on every
iteration; `rs k` is the value observed at iteration `k`).  Returns the
transmitted messages and the final queue. -/
def drainLoop : List Msg → (Nat → ReadyState) → Nat → List Msg × List Msg
  | [], _, _ => ([], [])
  | m :: rest, rs, k =>
    let r := drainLoop rest rs (k + 1)
    if rs k = ReadyState.OPEN then (m :: r.1, r.2) else r

/-- Embedding of handleOpen (lines 115 to 131) for the handle `i`,
parameterized by the per-iteration readyState observation of the drain
loop: clear the connection timeout, set state OPEN, reset retries to 0,
clear the error, drain the queue, then onConnect. -/
def handleOpenWith (rs : Nat → ReadyState) (s : MState) (i : Nat) : MState :=
  let s1 := { s with
    sockets := modifyIdx s.sockets i (fun sk => { sk with timeoutPending := false }) }
  let d := drainLoop s1.messageQueue rs 0
  { s1 with
    state := WebSocketState.OPEN
    retries := 0
    lastError := none
    sent := s1.sent ++ d.1
    messageQueue := d.2 }

/-- Embedding of handleError (lines 143 to 149) for the handle `i`: clear
the connection timeout, record the generic connection-failed error, invoke
onError.  It schedules nothing. -/
def handleError (s : MState) (i : Nat) : MState :=
  let s1 := { s with
    sockets := modifyIdx s.sockets i (fun sk => { sk with timeoutPending := false }) }
  { s1 with
    lastError := some WSError.connectionFailed
    errorCb := s1.errorCb ++ [WSError.connectionFailed] }

/-- Embedding of handleClose (lines 151 to 177) for the handle `i`: clear
the connection timeout, set state CLOSED, onDisconnect, remove the event
listeners of `i`, then the retry decision: if shouldReconnect and
retries < maxRetries, increment retries and schedule a retry timer with
delay retryDelay * 2 ^ (retries - 1); else if shouldReconnect and
retries >= maxRetries, record the retries-exhausted error and invoke
onError; else do nothing further. -/
def handleClose (cfg : Config) (s : MState) (i : Nat) : MState :=
  let s1 := { s with
    sockets := modifyIdx s.sockets i (fun sk => { sk with timeoutPending := false }) }
  let s2 := { s1 with state := WebSocketState.CLOSED }
  let s3 := { s2 with
    sockets := modifyIdx s2.sockets i (fun sk => { sk with listeners := false }) }
  if cfg.shouldReconnect = true ∧ s3.retries < cfg.maxRetries then
    let r := s3.retries + 1
    { s3 with
      retries := r
      delayLog := s3.delayLog ++ [cfg.retryDelay * 2 ^ (r - 1)]
      pendingTimers := s3.pendingTimers ++ [s3.nextTimer]
      retryTimerRef := some s3.nextTimer
      nextTimer := s3.nextTimer + 1 }
  else if cfg.shouldReconnect = true ∧ cfg.maxRetries ≤ s3.retries then
    { s3 with
      lastError := some WSError.retriesExhausted
      errorCb := s3.errorCb ++ [WSError.retriesExhausted] }
  else s3

/-- Embedding of sendMessage (lines 197 to 211): transmit immediately when
the current handle is OPEN, otherwise append the message to the queue and
return (no error, no exception). -/
def sendMessage (s : MState) (m : Msg) : MState :=
  if currentReady s = some ReadyState.OPEN then
    { s with sent := s.sent ++ [m] }
  else
    { s with messageQueue := s.messageQueue ++ [m] }

/-- clearTimeout(retryTimeoutRef.current): cancels the most recently stored
retry timer id, when one was ever stored (the ref is never nulled, but
clearing an already fired or cancelled id is a no-op, which removal from
`pendingTimers` models). -/
def cancelLatestTimer (s : MState) : MState :=
  match s.retryTimerRef with
  | some t => { s with pendingTimers := s.pendingTimers.filter (fun x => x ≠ t) }
  | none => s

/-- Embedding of reconnect (lines 216 to 231): close the current handle
(without detaching its listeners), reset retries to 0, clear the stored
retry timer, clear the error, then call connect through connectRef. -/
def reconnect (s : MState) : MState :=
  let s1 := closeCurrent s
  let s2 := { s1 with retries := 0 }
  let s3 := cancelLatestTimer s2
  let s4 := { s3 with lastError := none }
  connect s4

/-- Embedding of the unmount cleanup (lines 247 to 255), the stop/teardown
path: clear the stored retry timer, then close the current handle.  Nothing
detaches listeners and no flag suppresses the close handler. -/
def stop (s : MState) : MState :=
  closeCurrent (cancelLatestTimer s)

/-- The discrete events driving one hook instance: caller operations and
asynchronous completions delivered by the event loop. -/
inductive Ev where
  | callConnect
  | callSend (m : Msg)
  | callReconnect
  | callStop
  | sockOpen (i : Nat)
  | sockError (i : Nat)
  | sockClose (i : Nat)
  | connectTimeout (i : Nat)
  | retryFire (t : Nat)
deriving DecidableEq, Repr

/-- One step of the event loop.  Transport events on handle `i` run the
corresponding handler iff the listeners of `i` are still attached; a
connection timeout fires iff still scheduled, and its callback closes the
handle only when the handle is still CONNECTING (recording no error); a
retry timer fires iff still pending, and its callback is
connectRef.current(). -/
def step (cfg : Config) (s : MState) : Ev → MState
  | Ev.callConnect => connect s
  | Ev.callSend m => sendMessage s m
  | Ev.callReconnect => reconnect s
  | Ev.callStop => stop s
  | Ev.sockOpen i =>
    match s.sockets.get? i with
    | some sk =>
      if sk.ready = ReadyState.CONNECTING then
        let s1 := { s with
          sockets := modifyIdx s.sockets i (fun x => { x with ready := ReadyState.OPEN }) }
        if sk.listeners then handleOpenWith (fun _ => ReadyState.OPEN) s1 i else s1
      else s
    | none => s
  | Ev.sockError i =>
    match s.sockets.get? i with
    | some sk => if sk.listeners then handleError s i else s
    | none => s
  | Ev.sockClose i =>
    match s.sockets.get? i with
    | some sk =>
      if sk.ready ≠ ReadyState.CLOSED then
        let s1 := { s with
          sockets := modifyIdx s.sockets i (fun x => { x with ready := ReadyState.CLOSED }) }
        if sk.listeners then handleClose cfg s1 i else s1
      else s
    | none => s
  | Ev.connectTimeout i =>
    match s.sockets.get? i with
    | some sk =>
      if sk.timeoutPending then
        let s1 := { s with
          sockets := modifyIdx s.sockets i (fun x => { x with timeoutPending := false }) }
        if sk.ready = ReadyState.CONNECTING then
          { s1 with sockets := modifyIdx s1.sockets i closeWS }
        else s1
      else s
    | none => s
  | Ev.retryFire t =>
    if t ∈ s.pendingTimers then
      connect { s with pendingTimers := s.pendingTimers.filter (fun x => x ≠ t) }
    else s

/-- Run a sequence of events from a state. -/
def run (cfg : Config) (s : MState) (evs : List Ev) : MState :=
  evs.foldl (step cfg) s

/-- A handle after its close event has been handled: listeners removed,
CLOSED, connection timeout cleared. -/
def deadSocket : Socket :=
  { listeners := false, ready := ReadyState.CLOSED, timeoutPending := false }

theorem modifyIdx_length (l : List Socket) (i : Nat) (f : Socket → Socket) :
    (modifyIdx l i f).length = l.length := by
  induction l generalizing i with
  | nil => rfl
  | cons x xs ih =>
    cases i with
    | zero => simp [modifyIdx]
    | succ n => simp [modifyIdx, ih]

theorem modifyIdx_get_eq (l : List Socket) (i : Nat) (f : Socket → Socket) :
    (modifyIdx l i f).get? i = (l.get? i).map f := by
  induction l generalizing i with
  | nil => rfl
  | cons x xs ih =>
    cases i with
    | zero => rfl
    | succ n => simpa [modifyIdx] using ih n

theorem modifyIdx_get_ne (l : List Socket) (i j : Nat) (f : Socket → Socket)
    (h : i ≠ j) : (modifyIdx l j f).get? i = l.get? i := by
  induction l generalizing i j with
  | nil => rfl
  | cons x xs ih =>
    cases j with
    | zero =>
      cases i with
      | zero => exact absurd rfl h
      | succ m => rfl
    | succ n =>
      cases i with
      | zero => rfl
      | succ m => simpa [modifyIdx] using ih m n (by omega)

theorem get_append_length (l : List Socket) (b : Socket) :
    (l ++ [b]).get? l.length = some b := by
  induction l with
  | nil => rfl
  | cons x xs ih => exact ih

theorem get_append_lt (l : List Socket) (b : Socket) (i : Nat) (h : i < l.length) :
    (l ++ [b]).get? i = l.get? i := by
  induction l generalizing i with
  | nil => simp at h
  | cons x xs ih =>
    cases i with
    | zero => rfl
    | succ n => simpa using ih n (by simpa using h)

theorem get_replicate_eq (a b : Socket) (n i : Nat)
    (h : (List.replicate n a).get? i = some b) : b = a := by
  induction n generalizing i with
  | zero => simp [List.replicate] at h
  | succ m ih =>
    cases i with
    | zero =>
      simp [List.replicate] at h
      exact h.symm
    | succ k => exact ih k (by simpa [List.replicate] using h)

theorem modifyIdx_rep_append (k : Nat) (a b : Socket) (f : Socket → Socket) :
    modifyIdx (List.replicate k a ++ [b]) k f = List.replicate k a ++ [f b] := by
  induction k with
  | zero => rfl
  | succ n ih => simpa [List.replicate_succ, modifyIdx] using ih

theorem get_rep_append (k : Nat) (a b : Socket) :
    (List.replicate k a ++ [b]).get? k = some b := by
  induction k with
  | zero => rfl
  | succ n ih => simp only [List.replicate_succ, List.cons_append, List.get?]; exact ih

/-!
Claim C1 development: the canonical failing run.  The hook mounts
(connect), and every attempt fails: the current handle emits its close
event, and the scheduled retry timer (if any) fires, producing the next
attempt.  `failRun cfg k` is the state after `k` such fail/retry cycles.
-/

/-- State after k failed cycles: connect on mount, then k times (close of
attempt k, retry timer k fires). -/
def failRun (cfg : Config) : Nat → MState
  | 0 => connect init
  | k + 1 => step cfg (step cfg (failRun cfg k) (Ev.sockClose k)) (Ev.retryFire k)

/-- Closed form of `failRun cfg k` while retries remain: k dead handles, a
fresh CONNECTING one, retries = k, no pending timer (it just fired), and
the first k backoff delays logged. -/
def failState (cfg : Config) (k : Nat) : MState :=
  { state := WebSocketState.CONNECTING
    lastError := none
    retries := k
    retryTimerRef := if k = 0 then none else some (k - 1)
    pendingTimers := []
    nextTimer := k
    sockets := List.replicate k deadSocket ++ [freshSocket]
    current := some k
    messageQueue := []
    sent := []
    errorCb := []
    delayLog := (List.range k).map (fun j => cfg.retryDelay * 2 ^ j) }

/-- State between the close of attempt n and the firing of retry timer n:
the close handler has incremented retries to n + 1 and scheduled timer n
with the delay of attempt n + 1. -/
def midState (d n : Nat) : MState :=
  { state := WebSocketState.CLOSED
    lastError := none
    retries := n + 1
    retryTimerRef := some n
    pendingTimers := [n]
    nextTimer := n + 1
    sockets := List.replicate (n + 1) deadSocket
    current := some n
    messageQueue := []
    sent := []
    errorCb := []
    delayLog := (List.range (n + 1)).map (fun j => d * 2 ^ j) }

/-- Terminal state after the close of attempt N (the failing close
following the N-th automatic retry) with retries already at maxRetries:
retries-exhausted error, nothing scheduled. -/
def exhaustState (cfg : Config) (N : Nat) : MState :=
  { state := WebSocketState.CLOSED
    lastError := some WSError.retriesExhausted
    retries := N
    retryTimerRef := if N = 0 then none else some (N - 1)
    pendingTimers := []
    nextTimer := N
    sockets := List.replicate (N + 1) deadSocket
    current := some N
    messageQueue := []
    sent := []
    errorCb := [WSError.retriesExhausted]
    delayLog := (List.range N).map (fun j => cfg.retryDelay * 2 ^ j) }

theorem failState_sockClose (N d n : Nat) (h : n < N) :
    step ⟨true, N, d⟩ (failState ⟨true, N, d⟩ n) (Ev.sockClose n) = midState d n := by
  simp only [step, failState, get_rep_append]
  simp only [freshSocket, handleClose, modifyIdx_rep_append, midState,
    List.replicate_succ', List.range_succ, List.map_append, List.map_cons,
    List.map_nil, deadSocket]
  simp [h, List.replicate_succ']

theorem midState_retryFire (N d n : Nat) :
    step ⟨true, N, d⟩ (midState d n) (Ev.retryFire n) = failState ⟨true, N, d⟩ (n + 1) := by
  simp only [step, midState, List.mem_singleton]
  simp only [if_pos rfl, connect, currentReady, getSocket, List.replicate_succ',
    get_rep_append, failState]
  simp [deadSocket, List.replicate_succ']

theorem failRun_eq (N d k : Nat) (hk : k ≤ N) :
    failRun ⟨true, N, d⟩ k = failState ⟨true, N, d⟩ k := by
  induction k with
  | zero => rfl
  | succ n ih =>
    have h1 : n < N := by omega
    rw [failRun, ih (by omega), failState_sockClose N d n h1, midState_retryFire]

theorem failRun_exhaust (N d : Nat) :
    step ⟨true, N, d⟩ (failRun ⟨true, N, d⟩ N) (Ev.sockClose N) =
      exhaustState ⟨true, N, d⟩ N := by
  rw [failRun_eq N d N (le_refl N)]
  simp only [step, failState, get_rep_append]
  simp only [freshSocket, handleClose, modifyIdx_rep_append, exhaustState, deadSocket]
  simp [List.replicate_succ']

theorem exhaust_sockClose_noop (cfg : Config) (N i : Nat) :
    step cfg (exhaustState cfg N) (Ev.sockClose i) = exhaustState cfg N := by
  simp only [step]
  cases h : (exhaustState cfg N).sockets.get? i with
  | none => rfl
  | some sk =>
    have hd : sk = deadSocket := by
      apply get_replicate_eq deadSocket sk (N + 1) i
      simpa [exhaustState] using h
    simp [h, hd, deadSocket]

theorem exhaust_retryFire_noop (cfg : Config) (N t : Nat) :
    step cfg (exhaustState cfg N) (Ev.retryFire t) = exhaustState cfg N := by
  simp [step, exhaustState]

/-- Claim C1: with shouldReconnect = true and maxRetries = N, along the run
in which no attempt succeeds (each attempt closes and the scheduled retry
fires), the manager schedules exactly N automatic retries, the k-th with
delay retryDelay * 2 ^ (k - 1) (so after j full cycles the delay log is the
first j delays of the ladder), and after the close of the N-th retry it
records the retries-exhausted error, holds no pending timer, and no further
close or timer event schedules anything. -/
theorem c1_backoff_ladder_and_exhaustion (N d : Nat) :
    (∀ j, j ≤ N → (failRun ⟨true, N, d⟩ j).delayLog
        = (List.range j).map (fun k => d * 2 ^ k))
    ∧ (step ⟨true, N, d⟩ (failRun ⟨true, N, d⟩ N) (Ev.sockClose N)).delayLog
        = (List.range N).map (fun k => d * 2 ^ k)
    ∧ (step ⟨true, N, d⟩ (failRun ⟨true, N, d⟩ N) (Ev.sockClose N)).lastError
        = some WSError.retriesExhausted
    ∧ (step ⟨true, N, d⟩ (failRun ⟨true, N, d⟩ N) (Ev.sockClose N)).pendingTimers = []
    ∧ (∀ i, step ⟨true, N, d⟩
          (step ⟨true, N, d⟩ (failRun ⟨true, N, d⟩ N) (Ev.sockClose N)) (Ev.sockClose i)
        = step ⟨true, N, d⟩ (failRun ⟨true, N, d⟩ N) (Ev.sockClose N))
    ∧ (∀ t, step ⟨true, N, d⟩
          (step ⟨true, N, d⟩ (failRun ⟨true, N, d⟩ N) (Ev.sockClose N)) (Ev.retryFire t)
        = step ⟨true, N, d⟩ (failRun ⟨true, N, d⟩ N) (Ev.sockClose N)) := by
  refine ⟨fun j hj => ?_, ?_, ?_, ?_, fun i => ?_, fun t => ?_⟩
  · rw [failRun_eq N d j hj]; rfl
  · rw [failRun_exhaust]; rfl
  · rw [failRun_exhaust]; rfl
  · rw [failRun_exhaust]; rfl
  · rw [failRun_exhaust, exhaust_sockClose_noop]
  · rw [failRun_exhaust, exhaust_retryFire_noop]

/-- Witness for C1 at the spec scenario (maxAttempts 3, baseDelay 2000):
delays 2000, 4000, 8000, then retries-exhausted. -/
theorem c1_backoff_ladder_and_exhaustion_witness :
    (2 : Nat) ≤ 3
    ∧ (failRun ⟨true, 3, 2000⟩ 2).delayLog = [2000, 4000]
    ∧ (step ⟨true, 3, 2000⟩ (failRun ⟨true, 3, 2000⟩ 3) (Ev.sockClose 3)).delayLog
        = [2000, 4000, 8000]
    ∧ (step ⟨true, 3, 2000⟩ (failRun ⟨true, 3, 2000⟩ 3) (Ev.sockClose 3)).lastError
        = some WSError.retriesExhausted := by
  refine ⟨by decide, ?_, ?_, ?_⟩
  · rw [(c1_backoff_ladder_and_exhaustion 3 2000).1 2 (by decide)]; rfl
  · rw [(c1_backoff_ladder_and_exhaustion 3 2000).2.1]; rfl
  · exact (c1_backoff_ladder_and_exhaustion 3 2000).2.2.1

/-!
General lemmas about the operations, shared by the remaining claims.
-/

theorem modifyIdx_comp (l : List Socket) (i : Nat) (f g : Socket → Socket) :
    modifyIdx (modifyIdx l i f) i g = modifyIdx l i (fun x => g (f x)) := by
  induction l generalizing i with
  | nil => rfl
  | cons x xs ih =>
    cases i with
    | zero => rfl
    | succ n => simp [modifyIdx, ih]

theorem closeWS_listeners (sk : Socket) : (closeWS sk).listeners = sk.listeners := by
  unfold closeWS; split <;> rfl

theorem closeWS_not_live (sk : Socket) :
    (closeWS sk).ready = ReadyState.CLOSING ∨ (closeWS sk).ready = ReadyState.CLOSED := by
  unfold closeWS
  split
  · exact Or.inl rfl
  · rename_i hc
    cases h : sk.ready <;> simp_all

theorem closeCurrent_messageQueue (s : MState) :
    (closeCurrent s).messageQueue = s.messageQueue := by
  cases h : s.current <;> simp [closeCurrent, h]

theorem closeCurrent_length (s : MState) :
    (closeCurrent s).sockets.length = s.sockets.length := by
  cases h : s.current <;> simp [closeCurrent, h, modifyIdx_length]

theorem closeCurrent_sent (s : MState) : (closeCurrent s).sent = s.sent := by
  cases h : s.current <;> simp [closeCurrent, h]

theorem closeCurrent_current (s : MState) : (closeCurrent s).current = s.current := by
  cases h : s.current <;> simp [closeCurrent, h]

theorem closeCurrent_retryTimerRef (s : MState) :
    (closeCurrent s).retryTimerRef = s.retryTimerRef := by
  cases h : s.current <;> simp [closeCurrent, h]

theorem cancelLatestTimer_sockets (s : MState) :
    (cancelLatestTimer s).sockets = s.sockets := by
  unfold cancelLatestTimer; cases h : s.retryTimerRef <;> simp [h]

theorem cancelLatestTimer_current (s : MState) :
    (cancelLatestTimer s).current = s.current := by
  unfold cancelLatestTimer; cases h : s.retryTimerRef <;> simp [h]

theorem cancelLatestTimer_messageQueue (s : MState) :
    (cancelLatestTimer s).messageQueue = s.messageQueue := by
  unfold cancelLatestTimer; cases h : s.retryTimerRef <;> simp [h]

theorem cancelLatestTimer_sent (s : MState) :
    (cancelLatestTimer s).sent = s.sent := by
  unfold cancelLatestTimer; cases h : s.retryTimerRef <;> simp [h]

theorem currentReady_congr (a b : MState) (hs : a.sockets = b.sockets)
    (hc : a.current = b.current) : currentReady a = currentReady b := by
  unfold currentReady getSocket
  rw [hs, hc]

theorem connect_messageQueue (s : MState) : (connect s).messageQueue = s.messageQueue := by
  unfold connect
  split
  · rfl
  · split
    · exact closeCurrent_messageQueue s
    · rfl

theorem connect_sent (s : MState) : (connect s).sent = s.sent := by
  unfold connect
  split
  · rfl
  · split
    · cases h : s.current <;> simp [closeCurrent, h]
    · rfl

theorem connect_pendingTimers (s : MState) :
    (connect s).pendingTimers = s.pendingTimers := by
  unfold connect
  split
  · rfl
  · split
    · cases h : s.current <;> simp [closeCurrent, h]
    · rfl

theorem connect_retries (s : MState) : (connect s).retries = s.retries := by
  unfold connect
  split
  · rfl
  · split
    · cases h : s.current <;> simp [closeCurrent, h]
    · rfl

theorem connect_delayLog (s : MState) : (connect s).delayLog = s.delayLog := by
  unfold connect
  split
  · rfl
  · split
    · cases h : s.current <;> simp [closeCurrent, h]
    · rfl

theorem connect_lastError (s : MState) : (connect s).lastError = s.lastError := by
  unfold connect
  split
  · rfl
  · split
    · cases h : s.current <;> simp [closeCurrent, h]
    · rfl

theorem currentReady_closeCurrent (s : MState) :
    currentReady (closeCurrent s) ≠ some ReadyState.OPEN := by
  cases h : s.current with
  | none => simp [currentReady, getSocket, closeCurrent, h]
  | some i =>
    simp only [currentReady, getSocket, closeCurrent, h]
    rw [modifyIdx_get_eq]
    cases hg : s.sockets.get? i with
    | none => simp
    | some sk =>
      simp only [Option.map_some']
      intro hco
      rcases closeWS_not_live sk with h1 | h1 <;> simp_all

/-- Connect applied after a close of the current handle: always creates a
fresh handle at the end of the socket store. -/
theorem connect_of_not_open (s : MState) (h : currentReady s ≠ some ReadyState.OPEN) :
    (connect s).sockets.length = s.sockets.length + 1
    ∧ (connect s).current = some s.sockets.length
    ∧ (connect s).sockets.get? s.sockets.length = some freshSocket
    ∧ (connect s).state = WebSocketState.CONNECTING := by
  unfold connect
  rw [if_neg h]
  split
  · refine ⟨?_, ?_, ?_, rfl⟩
    · simp [closeCurrent_length]
    · simp [closeCurrent_length]
    · have hl := closeCurrent_length s
      rw [← hl, get_append_length]
  · exact ⟨by simp, by simp, by rw [get_append_length], rfl⟩

/-- The queue drain transmits everything when the handle stays OPEN for the
whole drain. -/
theorem drainLoop_all_open (q : List Msg) (k : Nat) :
    drainLoop q (fun _ => ReadyState.OPEN) k = (q, []) := by
  induction q generalizing k with
  | nil => rfl
  | cons m tl ih => simp [drainLoop, ih]

/-- The drain loop always empties the queue, whatever readyState values are
observed: every message is shifted out before the open check. -/
theorem drainLoop_snd_nil (q : List Msg) (rs : Nat → ReadyState) (k : Nat) :
    (drainLoop q rs k).2 = [] := by
  induction q generalizing k with
  | nil => rfl
  | cons m tl ih =>
    simp only [drainLoop]
    split <;> simp [ih]

/-- When the observed readyState is OPEN exactly for the first j iterations,
the drain transmits the first j messages and silently discards the rest. -/
theorem drainLoop_drops_after (j : Nat) (q : List Msg) (k : Nat) :
    drainLoop q (fun t => if t < j then ReadyState.OPEN else ReadyState.CLOSING) k
      = (q.take (j - k), []) := by
  induction q generalizing k with
  | nil => simp [drainLoop]
  | cons m tl ih =>
    by_cases hk : k < j
    · have hj : j - k = (j - (k + 1)) + 1 := by omega
      simp [drainLoop, hk, ih, hj]
    · have hj0 : j - k = 0 := by omega
      have hj1 : j - (k + 1) = 0 := by omega
      simp [drainLoop, hk, ih, hj0, hj1]

/-- Full effect of the open event on a CONNECTING handle with attached
listeners: handleOpen runs, the state moves to OPEN, retries and error are
reset, and the queue is drained into the transmission log in FIFO order. -/
theorem step_sockOpen_eq (cfg : Config) (s : MState) (i : Nat) (sk : Socket)
    (hget : s.sockets.get? i = some sk) (hready : sk.ready = ReadyState.CONNECTING)
    (hlis : sk.listeners = true) :
    step cfg s (Ev.sockOpen i) =
      { s with
        state := WebSocketState.OPEN
        retries := 0
        lastError := none
        sockets := modifyIdx s.sockets i
          (fun x => { x with ready := ReadyState.OPEN, timeoutPending := false })
        sent := s.sent ++ s.messageQueue
        messageQueue := [] } := by
  simp only [step, hget, hready, hlis, if_pos, handleOpenWith, drainLoop_all_open,
    modifyIdx_comp]

/-- Full effect of the close event on a non-CLOSED handle with attached
listeners while retries remain: handleClose runs, detaches the listeners,
increments retries, and schedules the next backoff delay. -/
theorem step_sockClose_schedules (cfg : Config) (s : MState) (i : Nat) (sk : Socket)
    (hget : s.sockets.get? i = some sk) (hready : sk.ready ≠ ReadyState.CLOSED)
    (hlis : sk.listeners = true) (hsr : cfg.shouldReconnect = true)
    (hlt : s.retries < cfg.maxRetries) :
    step cfg s (Ev.sockClose i) =
      { s with
        state := WebSocketState.CLOSED
        sockets := modifyIdx s.sockets i (fun _ => deadSocket)
        retries := s.retries + 1
        delayLog := s.delayLog ++ [cfg.retryDelay * 2 ^ s.retries]
        pendingTimers := s.pendingTimers ++ [s.nextTimer]
        retryTimerRef := some s.nextTimer
        nextTimer := s.nextTimer + 1 } := by
  simp only [step, hget, hready, hlis, if_pos, handleClose, modifyIdx_comp]
  simp [hsr, hlt, deadSocket, hready]

/-- Full effect of the close event when retries are exhausted: handleClose
records the retries-exhausted error and schedules nothing. -/
theorem step_sockClose_exhausts (cfg : Config) (s : MState) (i : Nat) (sk : Socket)
    (hget : s.sockets.get? i = some sk) (hready : sk.ready ≠ ReadyState.CLOSED)
    (hlis : sk.listeners = true) (hsr : cfg.shouldReconnect = true)
    (hge : cfg.maxRetries ≤ s.retries) :
    step cfg s (Ev.sockClose i) =
      { s with
        state := WebSocketState.CLOSED
        sockets := modifyIdx s.sockets i (fun _ => deadSocket)
        lastError := some WSError.retriesExhausted
        errorCb := s.errorCb ++ [WSError.retriesExhausted] } := by
  simp only [step, hget, hready, hlis, if_pos, handleClose, modifyIdx_comp]
  have hnlt : ¬ s.retries < cfg.maxRetries := by omega
  simp [hsr, hnlt, hge, deadSocket, hready]

/-- Claim C2 (code bug evidence): mount, then the unmount cleanup (stop)
while the handle is CONNECTING.  The cleanup clears the stored timer and
calls close(), but the close listener of the handle stays attached, so when
the close event arrives the close handler schedules a retry (delay 1000),
and when that timer fires a brand-new connection attempt starts.  Automatic
reconnection occurs after stop, contradicting the claim. -/
theorem c2_stop_then_automatic_reconnect :
    (run defaultConfig init [Ev.callConnect, Ev.callStop]).pendingTimers = []
    ∧ (run defaultConfig init [Ev.callConnect, Ev.callStop, Ev.sockClose 0]).pendingTimers
        = [0]
    ∧ (run defaultConfig init [Ev.callConnect, Ev.callStop, Ev.sockClose 0]).delayLog
        = [1000]
    ∧ (run defaultConfig init
        [Ev.callConnect, Ev.callStop, Ev.sockClose 0, Ev.retryFire 0]).sockets.length = 2
    ∧ (run defaultConfig init
        [Ev.callConnect, Ev.callStop, Ev.sockClose 0, Ev.retryFire 0]).current = some 1
    ∧ (run defaultConfig init
        [Ev.callConnect, Ev.callStop, Ev.sockClose 0, Ev.retryFire 0]).sockets.get? 1
        = some freshSocket := by
  decide

/-!
Claims C5, C9, C10: the outbound queue.
-/

/-- Repeated calls of sendMessage. -/
def sendAll (s : MState) (ms : List Msg) : MState := ms.foldl sendMessage s

theorem sendMessage_not_open (s : MState) (m : Msg)
    (h : currentReady s ≠ some ReadyState.OPEN) :
    sendMessage s m = { s with messageQueue := s.messageQueue ++ [m] } := by
  simp [sendMessage, h]

theorem sendAll_not_open (ms : List Msg) (s : MState)
    (h : currentReady s ≠ some ReadyState.OPEN) :
    sendAll s ms = { s with messageQueue := s.messageQueue ++ ms } := by
  induction ms generalizing s with
  | nil => simp [sendAll]
  | cons m tl ih =>
    have h2 : currentReady { s with messageQueue := s.messageQueue ++ [m] }
        ≠ some ReadyState.OPEN := h
    calc sendAll s (m :: tl)
        = sendAll { s with messageQueue := s.messageQueue ++ [m] } tl := by
          simp [sendAll, List.foldl, sendMessage_not_open s m h]
      _ = { s with messageQueue := s.messageQueue ++ m :: tl } := by
          rw [ih _ h2]; simp

theorem sendAll_open (ms : List Msg) (s : MState)
    (h : currentReady s = some ReadyState.OPEN) :
    sendAll s ms = { s with sent := s.sent ++ ms } := by
  induction ms generalizing s with
  | nil => simp [sendAll]
  | cons m tl ih =>
    have h2 : currentReady { s with sent := s.sent ++ [m] }
        = some ReadyState.OPEN := h
    calc sendAll s (m :: tl)
        = sendAll { s with sent := s.sent ++ [m] } tl := by
          simp [sendAll, List.foldl, sendMessage, h]
      _ = { s with sent := s.sent ++ m :: tl } := by
          rw [ih _ h2]; simp

/-- Claim C5: messages sent while the state is not Open are queued without
touching the error outputs; on the next open transition the whole queue is
transmitted in FIFO order ahead of anything sent afterwards. -/
theorem c5_queue_fifo_on_open (cfg : Config) (s : MState) (i : Nat) (sk : Socket)
    (ms1 ms2 : List Msg) (hcur : s.current = some i)
    (hget : s.sockets.get? i = some sk) (hready : sk.ready = ReadyState.CONNECTING)
    (hlis : sk.listeners = true) :
    (sendAll s ms1).lastError = s.lastError
    ∧ (sendAll s ms1).errorCb = s.errorCb
    ∧ (sendAll s ms1).sent = s.sent
    ∧ (sendAll s ms1).messageQueue = s.messageQueue ++ ms1
    ∧ (step cfg (sendAll s ms1) (Ev.sockOpen i)).sent
        = s.sent ++ (s.messageQueue ++ ms1)
    ∧ (step cfg (sendAll s ms1) (Ev.sockOpen i)).messageQueue = []
    ∧ (sendAll (step cfg (sendAll s ms1) (Ev.sockOpen i)) ms2).sent
        = s.sent ++ (s.messageQueue ++ ms1) ++ ms2 := by
  have hno : currentReady s ≠ some ReadyState.OPEN := by
    simp only [currentReady, getSocket, hcur, hget, Option.map_some']
    simp [hready]
  have hq := sendAll_not_open ms1 s hno
  have hopen := step_sockOpen_eq cfg { s with messageQueue := s.messageQueue ++ ms1 }
    i sk hget hready hlis
  have hcur2 : currentReady (step cfg (sendAll s ms1) (Ev.sockOpen i))
      = some ReadyState.OPEN := by
    rw [hq, hopen]
    simp only [currentReady, getSocket, hcur]
    rw [modifyIdx_get_eq, hget]
    rfl
  refine ⟨by rw [hq], by rw [hq], by rw [hq], by rw [hq],
    by rw [hq, hopen], by rw [hq, hopen], ?_⟩
  rw [sendAll_open ms2 _ hcur2, hq, hopen]

/-- Witness for C5: two messages queued while CONNECTING, then the open
event, then one more message: transmission order 7, 8, 9. -/
theorem c5_queue_fifo_on_open_witness :
    (step defaultConfig
      (sendAll (run defaultConfig init [Ev.callConnect]) [7, 8]) (Ev.sockOpen 0)).sent
      = [7, 8]
    ∧ (sendAll (step defaultConfig
        (sendAll (run defaultConfig init [Ev.callConnect]) [7, 8]) (Ev.sockOpen 0))
        [9]).sent = [7, 8, 9] := by
  have h := c5_queue_fifo_on_open defaultConfig (run defaultConfig init [Ev.callConnect])
    0 freshSocket [7, 8] [9] (by decide) (by decide) (by decide) (by decide)
  exact ⟨h.2.2.2.2.1, h.2.2.2.2.2.2⟩

/-- Claim C9: a manual reconnect leaves the outbound queue untouched, and
the queue is drained, in order, on the next open transition (of the handle
the reconnect created). -/
theorem c9_reconnect_preserves_queue (cfg : Config) (s : MState) :
    (reconnect s).messageQueue = s.messageQueue
    ∧ (reconnect s).sent = s.sent
    ∧ (step cfg (reconnect s) (Ev.sockOpen s.sockets.length)).sent
        = s.sent ++ s.messageQueue
    ∧ (step cfg (reconnect s) (Ev.sockOpen s.sockets.length)).messageQueue = [] := by
  have hql : (reconnect s).messageQueue = s.messageQueue := by
    simp only [reconnect, connect_messageQueue, cancelLatestTimer_messageQueue,
      closeCurrent_messageQueue]
  have hsl : (reconnect s).sent = s.sent := by
    simp only [reconnect, connect_sent, cancelLatestTimer_sent, closeCurrent_sent]
  have hlen : (reconnect s).sockets.get? s.sockets.length = some freshSocket := by
    have hcc : currentReady
        ({ cancelLatestTimer { closeCurrent s with retries := 0 } with
          lastError := none } : MState) ≠ some ReadyState.OPEN := by
      rw [currentReady_congr _ (closeCurrent s)
        (by simp only [cancelLatestTimer_sockets]) (by simp only [cancelLatestTimer_current])]
      exact currentReady_closeCurrent s
    have hc := (connect_of_not_open _ hcc).2.2.1
    have hlcc : ({ cancelLatestTimer { closeCurrent s with retries := 0 } with
        lastError := none } : MState).sockets.length = s.sockets.length := by
      simp only [cancelLatestTimer_sockets]
      exact closeCurrent_length s
    rw [hlcc] at hc
    exact hc
  have hopen := step_sockOpen_eq cfg (reconnect s) s.sockets.length freshSocket
    hlen rfl rfl
  exact ⟨hql, hsl, by rw [hopen]; simp [hql, hsl], by rw [hopen]⟩

/-- Claim C10: during the drain, each message is shifted out of the queue
before the open check; when the handle has left OPEN from iteration j
onwards, the first j messages are transmitted and the dequeued rest are
discarded: not re-queued, not transmitted, and not reported through the
error channel. -/
theorem c10_middrain_discard (s : MState) (i j : Nat) :
    (∀ rs : Nat → ReadyState, (handleOpenWith rs s i).messageQueue = [])
    ∧ (handleOpenWith (fun t => if t < j then ReadyState.OPEN else ReadyState.CLOSING)
        s i).sent = s.sent ++ s.messageQueue.take j
    ∧ (handleOpenWith (fun t => if t < j then ReadyState.OPEN else ReadyState.CLOSING)
        s i).errorCb = s.errorCb
    ∧ (handleOpenWith (fun t => if t < j then ReadyState.OPEN else ReadyState.CLOSING)
        s i).lastError = none := by
  refine ⟨fun rs => ?_, ?_, ?_, ?_⟩
  · simp [handleOpenWith, drainLoop_snd_nil]
  · simp [handleOpenWith, drainLoop_drops_after]
  · simp [handleOpenWith]
  · simp [handleOpenWith]

/-!
Claim C3: manual reconnect.
-/

theorem closeCurrent_pendingTimers (s : MState) :
    (closeCurrent s).pendingTimers = s.pendingTimers := by
  cases h : s.current <;> simp [closeCurrent, h]

theorem closeCurrent_delayLog (s : MState) :
    (closeCurrent s).delayLog = s.delayLog := by
  cases h : s.current <;> simp [closeCurrent, h]

theorem closeCurrent_errorCb (s : MState) :
    (closeCurrent s).errorCb = s.errorCb := by
  cases h : s.current <;> simp [closeCurrent, h]

theorem cancelLatestTimer_retries (s : MState) :
    (cancelLatestTimer s).retries = s.retries := by
  unfold cancelLatestTimer; cases h : s.retryTimerRef <;> simp [h]

theorem cancelLatestTimer_delayLog (s : MState) :
    (cancelLatestTimer s).delayLog = s.delayLog := by
  unfold cancelLatestTimer; cases h : s.retryTimerRef <;> simp [h]

theorem get_some_lt (l : List Socket) (i : Nat) (sk : Socket)
    (h : l.get? i = some sk) : i < l.length := by
  induction l generalizing i with
  | nil => simp at h
  | cons x xs ih =>
    cases i with
    | zero => simp
    | succ n => simpa using ih n (by simpa using h)

theorem not_mem_filter_ne (l : List Nat) (t : Nat) :
    t ∉ l.filter (fun x => x ≠ t) := by
  intro hmem
  have h := List.of_mem_filter hmem
  simp at h

theorem closeWS_idem (sk : Socket) : closeWS (closeWS sk) = closeWS sk := by
  cases hr : sk.ready <;> simp [closeWS, hr]

/-- Effect of connect on the handle it supersedes: when the handle at the
current index is not OPEN, connect leaves it closed (ws.close has been
applied to it) at its old index. -/
theorem connect_get_old (s : MState) (i : Nat) (sk : Socket)
    (hcur : s.current = some i) (hget : s.sockets.get? i = some sk)
    (hno : currentReady s ≠ some ReadyState.OPEN) :
    (connect s).sockets.get? i = some (closeWS sk) := by
  have hilt : i < s.sockets.length := get_some_lt _ _ _ hget
  unfold connect
  rw [if_neg hno]
  split
  · show ((closeCurrent s).sockets ++ [freshSocket]).get? i = some (closeWS sk)
    have hilt2 : i < (closeCurrent s).sockets.length := by
      rw [closeCurrent_length]; exact hilt
    rw [get_append_lt _ _ _ hilt2]
    simp only [closeCurrent, hcur]
    rw [modifyIdx_get_eq, hget]
    rfl
  · rename_i hng
    show (s.sockets ++ [freshSocket]).get? i = some (closeWS sk)
    rw [get_append_lt _ _ _ hilt, hget]
    have hsome : (getSocket s).isSome := by
      simp only [getSocket, hcur, hget, Option.isSome_some]
    have hcl : currentReady s = some ReadyState.CLOSED := by
      by_contra hne
      exact hng ⟨hsome, hne⟩
    have hskcl : sk.ready = ReadyState.CLOSED := by
      simp only [currentReady, getSocket, hcur, hget, Option.map_some'] at hcl
      exact Option.some.inj hcl
    rw [show closeWS sk = sk from by simp [closeWS, hskcl]]

theorem reconnect_retries (s : MState) : (reconnect s).retries = 0 := by
  simp only [reconnect, connect_retries, cancelLatestTimer_retries]

theorem reconnect_delayLog (s : MState) : (reconnect s).delayLog = s.delayLog := by
  simp only [reconnect, connect_delayLog, cancelLatestTimer_delayLog, closeCurrent_delayLog]

/-- Claim C3 (amended): reconnect cancels the most recently stored retry
timer, resets the retry counter to 0, clears the error, and immediately
begins a fresh connection attempt; but it closes the old handle WITHOUT
detaching its listeners, and if the fresh attempt is the next handle to
close, the scheduled delay is the attempt-1 delay (retryDelay). -/
theorem c3_reconnect_amended (cfg : Config) (s : MState) (t i : Nat) (sk : Socket)
    (ht : s.retryTimerRef = some t) (hcur : s.current = some i)
    (hget : s.sockets.get? i = some sk)
    (hsr : cfg.shouldReconnect = true) (hmax : 0 < cfg.maxRetries) :
    (reconnect s).retries = 0
    ∧ (reconnect s).lastError = none
    ∧ t ∉ (reconnect s).pendingTimers
    ∧ (reconnect s).state = WebSocketState.CONNECTING
    ∧ (reconnect s).sockets.length = s.sockets.length + 1
    ∧ (reconnect s).current = some s.sockets.length
    ∧ (reconnect s).sockets.get? s.sockets.length = some freshSocket
    ∧ (reconnect s).sockets.get? i = some (closeWS sk)
    ∧ (closeWS sk).listeners = sk.listeners
    ∧ (step cfg (reconnect s) (Ev.sockClose s.sockets.length)).delayLog
        = s.delayLog ++ [cfg.retryDelay] := by
  have hcc : currentReady
      ({ cancelLatestTimer { closeCurrent s with retries := 0 } with
        lastError := none } : MState) ≠ some ReadyState.OPEN := by
    rw [currentReady_congr _ (closeCurrent s)
      (by simp only [cancelLatestTimer_sockets]) (by simp only [cancelLatestTimer_current])]
    exact currentReady_closeCurrent s
  have hlcc : ({ cancelLatestTimer { closeCurrent s with retries := 0 } with
      lastError := none } : MState).sockets.length = s.sockets.length := by
    simp only [cancelLatestTimer_sockets]
    exact closeCurrent_length s
  have hcon := connect_of_not_open _ hcc
  rw [hlcc] at hcon
  have hlen : (reconnect s).sockets.length = s.sockets.length + 1 := hcon.1
  have hc : (reconnect s).current = some s.sockets.length := hcon.2.1
  have hf : (reconnect s).sockets.get? s.sockets.length = some freshSocket := hcon.2.2.1
  have hst : (reconnect s).state = WebSocketState.CONNECTING := hcon.2.2.2
  have hpend : t ∉ (reconnect s).pendingTimers := by
    rw [show (reconnect s).pendingTimers
        = ({ cancelLatestTimer { closeCurrent s with retries := 0 } with
            lastError := none } : MState).pendingTimers from connect_pendingTimers _]
    have hrt : ({ closeCurrent s with retries := 0 } : MState).retryTimerRef = some t := by
      rw [show ({ closeCurrent s with retries := 0 } : MState).retryTimerRef
          = (closeCurrent s).retryTimerRef from rfl, closeCurrent_retryTimerRef, ht]
    rw [show ({ cancelLatestTimer { closeCurrent s with retries := 0 } with
        lastError := none } : MState).pendingTimers
        = (cancelLatestTimer { closeCurrent s with retries := 0 }).pendingTimers from rfl]
    unfold cancelLatestTimer
    rw [hrt]
    exact not_mem_filter_ne _ t
  have hold : (reconnect s).sockets.get? i = some (closeWS sk) := by
    have hcur4 : ({ cancelLatestTimer { closeCurrent s with retries := 0 } with
        lastError := none } : MState).current = some i := by
      rw [show ({ cancelLatestTimer { closeCurrent s with retries := 0 } with
          lastError := none } : MState).current
          = (closeCurrent s).current from cancelLatestTimer_current _,
        closeCurrent_current, hcur]
    have hget4 : ({ cancelLatestTimer { closeCurrent s with retries := 0 } with
        lastError := none } : MState).sockets.get? i = some (closeWS sk) := by
      rw [show ({ cancelLatestTimer { closeCurrent s with retries := 0 } with
          lastError := none } : MState).sockets
          = (closeCurrent s).sockets from cancelLatestTimer_sockets _]
      simp only [closeCurrent, hcur]
      rw [modifyIdx_get_eq, hget]
      rfl
    have h4 := connect_get_old _ i (closeWS sk) hcur4 hget4 hcc
    rw [closeWS_idem] at h4
    exact h4
  have hdl : (step cfg (reconnect s) (Ev.sockClose s.sockets.length)).delayLog
      = s.delayLog ++ [cfg.retryDelay] := by
    have hsch := step_sockClose_schedules cfg (reconnect s) s.sockets.length freshSocket
      hf (by decide) rfl hsr (by rw [reconnect_retries]; exact hmax)
    rw [hsch]
    simp [reconnect_delayLog, reconnect_retries]
  exact ⟨reconnect_retries s, connect_lastError _, hpend, hst, hlen, hc, hf, hold,
    closeWS_listeners sk, hdl⟩

/-- Counterexample for C3 as stated: after a manual reconnect the old
handle still has its listeners attached (they are not detached before the
close), its later close event bumps the retry counter from 0 to 1, and the
failure of the fresh attempt then schedules the attempt-2 delay (2000),
not the attempt-1 delay (1000). -/
theorem c3_reconnect_counterexample :
    (run defaultConfig init [Ev.callConnect, Ev.callReconnect]).sockets.get? 0
      = some { listeners := true, ready := ReadyState.CLOSING, timeoutPending := true }
    ∧ (run defaultConfig init [Ev.callConnect, Ev.callReconnect]).retries = 0
    ∧ (run defaultConfig init [Ev.callConnect, Ev.callReconnect, Ev.sockClose 0]).retries
        = 1
    ∧ (run defaultConfig init [Ev.callConnect, Ev.callReconnect, Ev.sockClose 0,
        Ev.sockClose 1]).delayLog = [1000, 2000] := by
  decide

/-- Witness for C3 amended: reconnect during the backoff wait after the
first failure cancels pending timer 0 and resets retries. -/
theorem c3_reconnect_amended_witness :
    (reconnect (run defaultConfig init [Ev.callConnect, Ev.sockClose 0])).retries = 0
    ∧ 0 ∉ (reconnect (run defaultConfig init
        [Ev.callConnect, Ev.sockClose 0])).pendingTimers := by
  have h := c3_reconnect_amended defaultConfig
    (run defaultConfig init [Ev.callConnect, Ev.sockClose 0]) 0 0 deadSocket
    (by decide) (by decide) (by decide) (by decide) (by decide)
  exact ⟨h.1, h.2.2.1⟩

/-!
Claim C4: the live-handle invariant.  A handle is live when its readyState
is CONNECTING or OPEN.  The invariant provable from the code is: every
non-current handle is CLOSING or CLOSED, i.e. only the handle stored in
webSocketRef can be live.  (The other half of the claim — at most one
pending retry timer, and detaching listeners before starting a new
attempt — is refuted below.)
-/

/-- At most the socket at the index `cur` points to can be live. -/
def onlyCurrentLiveL (l : List Socket) (cur : Option Nat) : Prop :=
  ∀ i sk, l.get? i = some sk →
    (sk.ready = ReadyState.CONNECTING ∨ sk.ready = ReadyState.OPEN) → cur = some i

/-- Invariant of a hook state: only the current handle can be live. -/
def onlyCurrentLive (s : MState) : Prop := onlyCurrentLiveL s.sockets s.current

theorem ocl_modify_noCreate (l : List Socket) (cur : Option Nat) (i : Nat)
    (f : Socket → Socket)
    (hf : ∀ x, ((f x).ready = ReadyState.CONNECTING ∨ (f x).ready = ReadyState.OPEN) →
      (x.ready = ReadyState.CONNECTING ∨ x.ready = ReadyState.OPEN))
    (h : onlyCurrentLiveL l cur) : onlyCurrentLiveL (modifyIdx l i f) cur := by
  intro j sk hj hl
  by_cases hij : j = i
  · subst hij
    rw [modifyIdx_get_eq] at hj
    cases hg : l.get? j with
    | none => rw [hg] at hj; exact absurd hj (by simp)
    | some x =>
      rw [hg] at hj
      simp only [Option.map_some'] at hj
      have hfx : f x = sk := Option.some.inj hj
      exact h j x hg (hf x (by rw [hfx]; exact hl))
  · rw [modifyIdx_get_ne _ _ _ _ hij] at hj
    exact h j sk hj hl

theorem ocl_modify_current (l : List Socket) (c : Nat) (f : Socket → Socket)
    (h : onlyCurrentLiveL l (some c)) : onlyCurrentLiveL (modifyIdx l c f) (some c) := by
  intro j sk hj hl
  by_cases hjc : j = c
  · rw [hjc]
  · rw [modifyIdx_get_ne _ _ _ _ hjc] at hj
    exact h j sk hj hl

theorem onlyCurrentLive_closeCurrent (s : MState) (h : onlyCurrentLive s) :
    onlyCurrentLive (closeCurrent s) := by
  unfold onlyCurrentLive closeCurrent at *
  cases hc : s.current with
  | none => exact h
  | some c =>
    rw [hc] at h
    show onlyCurrentLiveL (modifyIdx s.sockets c closeWS) (some c)
    exact ocl_modify_current _ _ _ h

theorem onlyCurrentLive_cancelLatestTimer (s : MState) (h : onlyCurrentLive s) :
    onlyCurrentLive (cancelLatestTimer s) := by
  unfold onlyCurrentLive cancelLatestTimer at *
  cases hc : s.retryTimerRef <;> exact h

theorem onlyCurrentLive_connect (s : MState) (h : onlyCurrentLive s) :
    onlyCurrentLive (connect s) := by
  unfold connect
  by_cases ho : currentReady s = some ReadyState.OPEN
  · rw [if_pos ho]; exact h
  · rw [if_neg ho]
    by_cases hg : (getSocket s).isSome ∧ currentReady s ≠ some ReadyState.CLOSED
    · rw [if_pos hg]
      intro j sk hj hl
      show some (closeCurrent s).sockets.length = some j
      by_cases hjl : j = (closeCurrent s).sockets.length
      · rw [hjl]
      · have hjlt : j < (closeCurrent s).sockets.length := by
          have hle := get_some_lt _ _ _ hj
          simp only [List.length_append, List.length_singleton] at hle
          omega
        rw [show (({ closeCurrent s with
            state := WebSocketState.CONNECTING,
            sockets := (closeCurrent s).sockets ++ [freshSocket],
            current := some (closeCurrent s).sockets.length } : MState).sockets)
            = (closeCurrent s).sockets ++ [freshSocket] from rfl,
          get_append_lt _ _ _ hjlt] at hj
        have hcc := onlyCurrentLive_closeCurrent s h
        have hcur := hcc j sk hj hl
        rw [closeCurrent_current] at hcur
        -- the current handle of s is live at j, but closeCurrent closed it
        cases hcs : s.current with
        | none => rw [hcs] at hcur; exact absurd hcur (by simp)
        | some c =>
          rw [hcs] at hcur
          have hjc : j = c := (Option.some.inj hcur).symm
          subst hjc
          -- hj is about (closeCurrent s).sockets at the closed index
          unfold closeCurrent at hj
          rw [hcs, modifyIdx_get_eq] at hj
          cases hgc : s.sockets.get? j with
          | none => rw [hgc] at hj; exact absurd hj (by simp)
          | some x =>
            rw [hgc] at hj
            simp only [Option.map_some'] at hj
            have hx : closeWS x = sk := Option.some.inj hj
            rcases closeWS_not_live x with h1 | h1 <;>
              rw [hx] at h1 <;> rcases hl with h2 | h2 <;> simp [h2] at h1
    · rw [if_neg hg]
      intro j sk hj hl
      show some s.sockets.length = some j
      by_cases hjl : j = s.sockets.length
      · rw [hjl]
      · have hjlt : j < s.sockets.length := by
          have hle := get_some_lt _ _ _ hj
          simp only [List.length_append, List.length_singleton] at hle
          omega
        rw [show (({ s with
            state := WebSocketState.CONNECTING,
            sockets := s.sockets ++ [freshSocket],
            current := some s.sockets.length } : MState).sockets)
            = s.sockets ++ [freshSocket] from rfl,
          get_append_lt _ _ _ hjlt] at hj
        have hcur := h j sk hj hl
        have hsome : (getSocket s).isSome := by
          simp only [getSocket, hcur, hj, Option.isSome_some]
        have hcl : currentReady s = some ReadyState.CLOSED := by
          by_contra hne
          exact hg ⟨hsome, hne⟩
        have hskcl : sk.ready = ReadyState.CLOSED := by
          simp only [currentReady, getSocket, hcur, hj, Option.map_some'] at hcl
          exact Option.some.inj hcl
        rcases hl with h2 | h2 <;> rw [h2] at hskcl <;> exact absurd hskcl (by simp)

theorem handleClose_sockets (cfg : Config) (s : MState) (i : Nat) :
    (handleClose cfg s i).sockets
      = modifyIdx s.sockets i
          (fun x => { x with timeoutPending := false, listeners := false }) := by
  unfold handleClose
  dsimp only
  split
  · rw [modifyIdx_comp]
  · split
    · rw [modifyIdx_comp]
    · rw [modifyIdx_comp]

theorem handleClose_current (cfg : Config) (s : MState) (i : Nat) :
    (handleClose cfg s i).current = s.current := by
  unfold handleClose
  dsimp only
  split
  · rfl
  · split
    · rfl
    · rfl

theorem onlyCurrentLive_handleClose (cfg : Config) (s : MState) (i : Nat)
    (h : onlyCurrentLive s) : onlyCurrentLive (handleClose cfg s i) := by
  unfold onlyCurrentLive
  rw [handleClose_sockets, handleClose_current]
  exact ocl_modify_noCreate _ _ _ _ (fun x hx => hx) h

theorem onlyCurrentLive_step (cfg : Config) (s : MState) (ev : Ev)
    (h : onlyCurrentLive s) : onlyCurrentLive (step cfg s ev) := by
  cases ev with
  | callConnect => exact onlyCurrentLive_connect s h
  | callSend m =>
    show onlyCurrentLive (sendMessage s m)
    unfold sendMessage
    split <;> exact h
  | callReconnect =>
    exact onlyCurrentLive_connect _
      (onlyCurrentLive_cancelLatestTimer _ (onlyCurrentLive_closeCurrent s h))
  | callStop =>
    exact onlyCurrentLive_closeCurrent _ (onlyCurrentLive_cancelLatestTimer s h)
  | sockOpen i =>
    cases hg : s.sockets.get? i with
    | none => simpa only [step, hg] using h
    | some sk =>
      simp only [step, hg]
      by_cases hr : sk.ready = ReadyState.CONNECTING
      · rw [if_pos hr]
        have hci : s.current = some i := h i sk hg (Or.inl hr)
        have h1 : onlyCurrentLiveL
            (modifyIdx s.sockets i (fun x => { x with ready := ReadyState.OPEN }))
            (some i) :=
          ocl_modify_current _ _ _ (by rw [← hci]; exact h)
        by_cases hl : sk.listeners
        · rw [if_pos hl]
          unfold handleOpenWith onlyCurrentLive
          dsimp only
          rw [hci]
          exact ocl_modify_current _ _ _ h1
        · rw [if_neg hl]
          show onlyCurrentLiveL _ s.current
          rw [hci]
          exact h1
      · rw [if_neg hr]
        exact h
  | sockError i =>
    cases hg : s.sockets.get? i with
    | none => simpa only [step, hg] using h
    | some sk =>
      simp only [step, hg]
      by_cases hl : sk.listeners
      · rw [if_pos hl]
        unfold handleError onlyCurrentLive
        dsimp only
        exact ocl_modify_noCreate _ _ _ _ (fun x hx => hx) h
      · rw [if_neg hl]
        exact h
  | sockClose i =>
    cases hg : s.sockets.get? i with
    | none => simpa only [step, hg] using h
    | some sk =>
      simp only [step, hg]
      by_cases hr : sk.ready ≠ ReadyState.CLOSED
      · rw [if_pos hr]
        have h1 : onlyCurrentLive { s with sockets := modifyIdx s.sockets i (fun x => { x with ready := ReadyState.CLOSED }) } := by
          unfold onlyCurrentLive
          exact ocl_modify_noCreate _ _ _ _
            (fun x hx => by rcases hx with hx | hx <;> exact absurd hx (by simp)) h
        by_cases hl : sk.listeners
        · rw [if_pos hl]
          exact onlyCurrentLive_handleClose cfg _ i h1
        · rw [if_neg hl]
          exact h1
      · rw [if_neg hr]
        exact h
  | connectTimeout i =>
    cases hg : s.sockets.get? i with
    | none => simpa only [step, hg] using h
    | some sk =>
      simp only [step, hg]
      by_cases ht : sk.timeoutPending
      · rw [if_pos ht]
        have h1 : onlyCurrentLive { s with sockets := modifyIdx s.sockets i (fun x => { x with timeoutPending := false }) } := by
          unfold onlyCurrentLive
          exact ocl_modify_noCreate _ _ _ _ (fun x hx => hx) h
        by_cases hr : sk.ready = ReadyState.CONNECTING
        · rw [if_pos hr]
          unfold onlyCurrentLive
          dsimp only
          refine ocl_modify_noCreate _ _ _ _ (fun x hx => ?_) h1
          rcases closeWS_not_live x with h1 | h1 <;>
            rcases hx with h2 | h2 <;> rw [h2] at h1 <;> exact absurd h1 (by simp)
        · rw [if_neg hr]
          exact h1
      · rw [if_neg ht]
        exact h
  | retryFire t =>
    simp only [step]
    by_cases hm : t ∈ s.pendingTimers
    · rw [if_pos hm]
      exact onlyCurrentLive_connect _ h
    · rw [if_neg hm]
      exact h

theorem onlyCurrentLive_foldl (cfg : Config) (evs : List Ev) (s : MState)
    (h : onlyCurrentLive s) : onlyCurrentLive (evs.foldl (step cfg) s) := by
  induction evs generalizing s with
  | nil => exact h
  | cons e tl ih => exact ih _ (onlyCurrentLive_step cfg s e h)

theorem onlyCurrentLive_run (cfg : Config) (evs : List Ev) :
    onlyCurrentLive (run cfg init evs) := by
  refine onlyCurrentLive_foldl cfg evs init ?_
  intro i sk hget hl
  simp [init] at hget

/-- Claim C4 (amended): in every reachable state, at most one transport
handle is in CONNECTING or OPEN readyState, and it is the handle stored in
webSocketRef; every superseded handle has been closed.  (The pending-timer
and listener-detachment halves of the original claim are refuted by the
counterexample.) -/
theorem c4_single_live_handle (cfg : Config) (evs : List Ev) (i j : Nat)
    (ski skj : Socket)
    (hi : (run cfg init evs).sockets.get? i = some ski)
    (hj : (run cfg init evs).sockets.get? j = some skj)
    (hli : ski.ready = ReadyState.CONNECTING ∨ ski.ready = ReadyState.OPEN)
    (hlj : skj.ready = ReadyState.CONNECTING ∨ skj.ready = ReadyState.OPEN) :
    i = j ∧ (run cfg init evs).current = some i := by
  have h := onlyCurrentLive_run cfg evs
  have h1 := h i ski hi hli
  have h2 := h j skj hj hlj
  refine ⟨?_, h1⟩
  rw [h1] at h2
  exact Option.some.inj h2

/-- Witness for C4 amended: right after mount, handle 0 is CONNECTING and
is the current handle. -/
theorem c4_single_live_handle_witness :
    (0 : Nat) = 0 ∧ (run defaultConfig init [Ev.callConnect]).current = some 0 :=
  c4_single_live_handle defaultConfig [Ev.callConnect] 0 0 freshSocket freshSocket
    (by decide) (by decide) (Or.inl rfl) (Or.inl rfl)

/-- Counterexample for C4 as stated: after a manual reconnect during an
attempt, the close events of the old and the new handle each schedule a
retry timer and neither is cancelled: two retry timers are pending at
once.  Moreover connect() left the listeners of the superseded handle
attached. -/
theorem c4_counterexample :
    (run defaultConfig init [Ev.callConnect, Ev.callReconnect, Ev.sockClose 0,
        Ev.sockClose 1]).pendingTimers = [0, 1]
    ∧ (run defaultConfig init [Ev.callConnect, Ev.callReconnect]).sockets.get? 0
        = some { listeners := true, ready := ReadyState.CLOSING, timeoutPending := true } := by
  decide

/-!
Claims C6, C7, C8: timeout path, start idempotence, failure surfacing.
-/

/-- The close-handling cycle runs at most once per handle: a second close
event for the same handle is a no-op (after the first one the handle is
CLOSED and its listeners are removed). -/
theorem sockClose_idem (cfg : Config) (s : MState) (i : Nat) :
    step cfg (step cfg s (Ev.sockClose i)) (Ev.sockClose i)
      = step cfg s (Ev.sockClose i) := by
  cases hg : s.sockets.get? i with
  | none => simp only [step, hg]
  | some sk =>
    by_cases hr : sk.ready = ReadyState.CLOSED
    · have hid : step cfg s (Ev.sockClose i) = s := by
        simp only [step, hg]
        rw [if_neg (fun hc => hc hr)]
      rw [hid]
      exact hid
    · have hready2 : ∃ sk2, (step cfg s (Ev.sockClose i)).sockets.get? i = some sk2
          ∧ sk2.ready = ReadyState.CLOSED := by
        simp only [step, hg]
        rw [if_pos hr]
        by_cases hl : sk.listeners
        · rw [if_pos hl]
          refine ⟨deadSocket, ?_, rfl⟩
          rw [handleClose_sockets, modifyIdx_comp]
          show (modifyIdx s.sockets i _).get? i = some deadSocket
          rw [modifyIdx_get_eq, hg]
          rfl
        · rw [if_neg hl]
          refine ⟨{ sk with ready := ReadyState.CLOSED }, ?_, rfl⟩
          show (modifyIdx s.sockets i _).get? i = _
          rw [modifyIdx_get_eq, hg]
          rfl
      obtain ⟨sk2, hg2, hr2⟩ := hready2
      set u := step cfg s (Ev.sockClose i) with hu
      simp only [step, hg2]
      rw [if_neg (fun hc => hc hr2)]

/-- Claim C6 (amended): a connect timeout firing while the handle is still
CONNECTING force-closes the handle but records NO error (lastError, the
error callback log, the timers and the delay log are untouched); an error
event never schedules a retry (only the close handler does); and exactly
one close-handling cycle runs per handle. -/
theorem c6_timeout_amended (cfg : Config) (s : MState) (i : Nat) (sk : Socket)
    (hget : s.sockets.get? i = some sk) (htp : sk.timeoutPending = true)
    (hcn : sk.ready = ReadyState.CONNECTING) :
    (step cfg s (Ev.connectTimeout i)).sockets.get? i
        = some { sk with timeoutPending := false, ready := ReadyState.CLOSING }
    ∧ (step cfg s (Ev.connectTimeout i)).lastError = s.lastError
    ∧ (step cfg s (Ev.connectTimeout i)).errorCb = s.errorCb
    ∧ (step cfg s (Ev.connectTimeout i)).pendingTimers = s.pendingTimers
    ∧ (step cfg s (Ev.connectTimeout i)).delayLog = s.delayLog
    ∧ (step cfg s (Ev.connectTimeout i)).state = s.state
    ∧ (∀ i2, (step cfg s (Ev.sockError i2)).pendingTimers = s.pendingTimers)
    ∧ (∀ i2, (step cfg s (Ev.sockError i2)).delayLog = s.delayLog)
    ∧ (∀ s2 i3, step cfg (step cfg s2 (Ev.sockClose i3)) (Ev.sockClose i3)
        = step cfg s2 (Ev.sockClose i3)) := by
  have hstep : step cfg s (Ev.connectTimeout i)
      = { s with sockets := modifyIdx s.sockets i (fun x => closeWS { x with timeoutPending := false }) } := by
    simp only [step, hget, htp, hcn, if_pos, modifyIdx_comp]
  have herr : ∀ i2, (step cfg s (Ev.sockError i2)).pendingTimers = s.pendingTimers
      ∧ (step cfg s (Ev.sockError i2)).delayLog = s.delayLog := by
    intro i2
    cases hg2 : s.sockets.get? i2 with
    | none => exact ⟨by simp only [step, hg2], by simp only [step, hg2]⟩
    | some sk2 =>
      simp only [step, hg2]
      by_cases hl : sk2.listeners
      · rw [if_pos hl]
        exact ⟨rfl, rfl⟩
      · rw [if_neg hl]
        exact ⟨rfl, rfl⟩
  refine ⟨?_, by rw [hstep], by rw [hstep], by rw [hstep], by rw [hstep], by rw [hstep],
    fun i2 => (herr i2).1, fun i2 => (herr i2).2, fun s2 i3 => sockClose_idem cfg s2 i3⟩
  rw [hstep]
  show (modifyIdx s.sockets i _).get? i = _
  rw [modifyIdx_get_eq, hget]
  simp [closeWS, hcn]

/-- Counterexample for C6 as stated: the timeout callback force-closes the
CONNECTING handle but records no timeout error in LastError (it only logs a
console warning); LastError is still none after the timer fires. -/
theorem c6_timeout_counterexample :
    (run defaultConfig init [Ev.callConnect, Ev.connectTimeout 0]).lastError = none
    ∧ (run defaultConfig init [Ev.callConnect, Ev.connectTimeout 0]).sockets.get? 0
        = some { listeners := true, ready := ReadyState.CLOSING, timeoutPending := false } := by
  decide

/-- Witness for C6 amended: timeout fires on the freshly mounted handle. -/
theorem c6_timeout_amended_witness :
    (step defaultConfig (run defaultConfig init [Ev.callConnect])
        (Ev.connectTimeout 0)).sockets.get? 0
      = some { listeners := true, ready := ReadyState.CLOSING, timeoutPending := false }
    ∧ (step defaultConfig (run defaultConfig init [Ev.callConnect])
        (Ev.connectTimeout 0)).lastError = none := by
  have h := c6_timeout_amended defaultConfig (run defaultConfig init [Ev.callConnect])
    0 freshSocket (by decide) rfl rfl
  exact ⟨h.1.trans rfl, h.2.1.trans (by decide)⟩

/-- Claim C7 (amended): start (connect) is a no-op only when the current
handle is OPEN; when the current handle is still CONNECTING, connect is NOT
a no-op: it closes the in-flight handle (without detaching its listeners)
and immediately opens a new one. -/
theorem c7_start_amended (s : MState) :
    (currentReady s = some ReadyState.OPEN → connect s = s)
    ∧ (currentReady s = some ReadyState.CONNECTING →
        (connect s).sockets.length = s.sockets.length + 1
        ∧ (connect s).current = some s.sockets.length
        ∧ (connect s).sockets.get? s.sockets.length = some freshSocket
        ∧ (connect s).state = WebSocketState.CONNECTING
        ∧ (∀ i sk, s.current = some i → s.sockets.get? i = some sk →
            (connect s).sockets.get? i = some (closeWS sk))) := by
  constructor
  · intro h
    unfold connect
    rw [if_pos h]
  · intro h
    have hno : currentReady s ≠ some ReadyState.OPEN := by rw [h]; simp
    have hc := connect_of_not_open s hno
    exact ⟨hc.1, hc.2.1, hc.2.2.1, hc.2.2.2,
      fun i sk hcur hget => connect_get_old s i sk hcur hget hno⟩

/-- Counterexample for C7 as stated: calling start again while the state is
CONNECTING is not a no-op — it closes handle 0 and creates handle 1. -/
theorem c7_start_counterexample :
    (run defaultConfig init [Ev.callConnect]).state = WebSocketState.CONNECTING
    ∧ (run defaultConfig init [Ev.callConnect, Ev.callConnect]).sockets.length = 2
    ∧ (run defaultConfig init [Ev.callConnect, Ev.callConnect]).sockets.get? 0
        = some { listeners := true, ready := ReadyState.CLOSING, timeoutPending := true } := by
  decide

/-- Witness for C7 amended: no-op on an OPEN handle, restart on a
CONNECTING one. -/
theorem c7_start_amended_witness :
    connect (run defaultConfig init [Ev.callConnect, Ev.sockOpen 0])
      = run defaultConfig init [Ev.callConnect, Ev.sockOpen 0]
    ∧ (connect (run defaultConfig init [Ev.callConnect])).sockets.length = 2 := by
  refine ⟨(c7_start_amended _).1 (by decide), ?_⟩
  have h := ((c7_start_amended (run defaultConfig init [Ev.callConnect])).2 (by decide)).1
  rw [h]
  decide

/-- Claim C8 (amended): a transport error event records the generic
connection-failed error as LastError and surfaces it through the error
callback, scheduling nothing itself (the backoff decision is taken by the
close handler, which the transport close then triggers); a constructor
failure records and surfaces the creation error and moves to CLOSED but
schedules no retry at all; a close with retries remaining schedules the
standard backoff delay. -/
theorem c8_failure_surfacing_amended (cfg : Config) (s : MState) :
    (∀ i sk, s.sockets.get? i = some sk → sk.listeners = true →
      (step cfg s (Ev.sockError i)).lastError = some WSError.connectionFailed
      ∧ (step cfg s (Ev.sockError i)).errorCb = s.errorCb ++ [WSError.connectionFailed]
      ∧ (step cfg s (Ev.sockError i)).pendingTimers = s.pendingTimers
      ∧ (step cfg s (Ev.sockError i)).delayLog = s.delayLog)
    ∧ (currentReady s ≠ some ReadyState.OPEN →
      (connectCtorFail s).lastError = some WSError.creationError
      ∧ (connectCtorFail s).errorCb = s.errorCb ++ [WSError.creationError]
      ∧ (connectCtorFail s).state = WebSocketState.CLOSED
      ∧ (connectCtorFail s).pendingTimers = s.pendingTimers
      ∧ (connectCtorFail s).delayLog = s.delayLog
      ∧ (connectCtorFail s).sockets.length = s.sockets.length)
    ∧ (∀ i sk, s.sockets.get? i = some sk → sk.ready ≠ ReadyState.CLOSED →
        sk.listeners = true → cfg.shouldReconnect = true → s.retries < cfg.maxRetries →
      (step cfg s (Ev.sockClose i)).delayLog
          = s.delayLog ++ [cfg.retryDelay * 2 ^ s.retries]
      ∧ (step cfg s (Ev.sockClose i)).pendingTimers
          = s.pendingTimers ++ [s.nextTimer]) := by
  refine ⟨fun i sk hget hlis => ?_, fun hno => ?_, fun i sk hget hr hlis hsr hlt => ?_⟩
  · simp only [step, hget, hlis, if_pos]
    unfold handleError
    exact ⟨rfl, rfl, rfl, rfl⟩
  · unfold connectCtorFail
    rw [if_neg hno]
    split
    · refine ⟨rfl, ?_, rfl, ?_, ?_, ?_⟩
      · show (closeCurrent s).errorCb ++ [WSError.creationError]
            = s.errorCb ++ [WSError.creationError]
        rw [closeCurrent_errorCb]
      · exact closeCurrent_pendingTimers s
      · exact closeCurrent_delayLog s
      · exact closeCurrent_length s
    · exact ⟨rfl, rfl, rfl, rfl, rfl, rfl⟩
  · have h := step_sockClose_schedules cfg s i sk hget hr hlis hsr hlt
    rw [h]
    exact ⟨rfl, rfl⟩

/-- Counterexample for C8 as stated: a constructor failure is recorded and
surfaced but enters CLOSED with no retry scheduled and no handle whose
close could trigger the backoff (the retry policy is bypassed), and a
timeout surfaces nothing through the error callback. -/
theorem c8_failure_counterexample :
    (connectCtorFail init).lastError = some WSError.creationError
    ∧ (connectCtorFail init).state = WebSocketState.CLOSED
    ∧ (connectCtorFail init).pendingTimers = []
    ∧ (connectCtorFail init).delayLog = []
    ∧ (connectCtorFail init).sockets = []
    ∧ (run defaultConfig init [Ev.callConnect, Ev.connectTimeout 0]).errorCb = [] := by
  decide

/-- Witness for C8 amended: error and close events on the freshly mounted
handle. -/
theorem c8_failure_surfacing_amended_witness :
    (step defaultConfig (run defaultConfig init [Ev.callConnect])
        (Ev.sockError 0)).lastError = some WSError.connectionFailed
    ∧ (step defaultConfig (run defaultConfig init [Ev.callConnect])
        (Ev.sockClose 0)).delayLog = [1000] := by
  have h := c8_failure_surfacing_amended defaultConfig
    (run defaultConfig init [Ev.callConnect])
  refine ⟨(h.1 0 freshSocket (by decide) rfl).1, ?_⟩
  have h3 := (h.2.2 0 freshSocket (by decide) (by decide) rfl rfl (by decide)).1
  rw [h3]
  decide

end UseWebSocket
